import Mathlib

/-!
Shallow embedding of the `config` package of T-Prohmpossadhorn/go-core-config
(`config.go`), together with the behaviour of its dependency
`github.com/spf13/viper` (v1.19) restricted to the features the package uses:
`SetDefault`, `BindEnv`/`AutomaticEnv` with an env-key replacer, config-file
loading, the typed getters backed by `spf13/cast`, `AllSettings`, and
`Unmarshal` via `mapstructure` with weakly-typed input.

Machine strings are Lean `String`s; Go maps whose iteration order is
irrelevant for the result are association lists; the process environment and
the file system are explicit parameters (a `World`).
-/

/-! ### String helpers (ASCII), structural so that closed terms reduce -/

/-- Lower-case every character (`strings.ToLower`). -/
def strLower (s : String) : String := String.mk (s.data.map Char.toLower)

/-- Upper-case every character (`strings.ToUpper`). -/
def strUpper (s : String) : String := String.mk (s.data.map Char.toUpper)

/-- Replace every dot by an underscore (`strings.NewReplacer(".", "_")`). -/
def replaceDots (s : String) : String :=
  String.mk (s.data.map (fun c => if c = '.' then '_' else c))

/-- Does `pat` occur at the head of `l`? -/
def chStarts : List Char → List Char → Bool
  | [], _ => true
  | _ :: _, [] => false
  | p :: ps, c :: cs => p == c && chStarts ps cs

/-- Does `pat` occur anywhere inside the character list? -/
def chContains (pat : List Char) : List Char → Bool
  | [] => chStarts pat []
  | c :: rest => chStarts pat (c :: rest) || chContains pat rest

/-- Does `pat` occur anywhere inside `s`? (`strings.Contains`). -/
def strContains (s pat : String) : Bool := chContains pat.data s.data

/-- `strings.HasPrefix`-style check on strings. -/
def strStarts (s pat : String) : Bool := chStarts pat.data s.data

/-- `path/filepath.Ext`: the suffix of the final path element beginning at its
final dot, or `""` when the final element has no dot. Scans backwards,
stopping at a path separator. -/
def filepathExt (path : String) : String := extAux path.data.reverse []
where
  extAux : List Char → List Char → String
    | [], _ => ""
    | c :: rest, acc =>
      if c = '.' then String.mk ('.' :: acc)
      else if c = '/' then ""
      else extAux rest (c :: acc)

/-! ### The value tree -/

/-- A dynamically-typed configuration value (YAML/JSON scalar or mapping),
as held by viper's layer maps. -/
inductive Value where
  | vstr  : String → Value
  | vbool : Bool → Value
  | vmap  : List (String × String) → Value
deriving Repr

/-- The process environment: variable name to value. -/
abbrev EnvMap := List (String × String)

/-- `strconv.ParseBool`: the exact set of accepted literals. -/
def parseBool (s : String) : Option Bool :=
  if s = "1" ∨ s = "t" ∨ s = "T" ∨ s = "TRUE" ∨ s = "true" ∨ s = "True" then some true
  else if s = "0" ∨ s = "f" ∨ s = "F" ∨ s = "FALSE" ∨ s = "false" ∨ s = "False" then some false
  else none

/-- `spf13/cast.ToString` on a possibly-absent value: `nil` and uncastable
values become `""`, booleans print as `strconv.FormatBool`. -/
def castToString : Option Value → String
  | none => ""
  | some (.vstr s) => s
  | some (.vbool b) => if b then "true" else "false"
  | some (.vmap _) => ""

/-- `spf13/cast.ToBool` on a possibly-absent value: `nil`, uncastable values
and unparsable strings all become `false`. -/
def castToBool : Option Value → Bool
  | none => false
  | some (.vbool b) => b
  | some (.vstr s) => (parseBool s).getD false
  | some (.vmap _) => false

/-! ### Viper state

Only the layers and features `config.go` exercises are modelled: the
`defaults` layer (`SetDefault`), the `config` layer (`ReadInConfig`),
environment bindings (`BindEnv`) with `AutomaticEnv` and the `.`→`_`
key replacer, and the config-file/type registration. The `override`,
`pflags` and `kvstore` layers are never touched by the package and stay
out of the model. Keys are stored and looked up lower-cased, as viper
does. -/

structure ViperState where
  defaults : List (String × Value)
  config : List (String × Value)
  envPfx : String
  envBindings : List (String × String)
  automaticEnv : Bool
  configType : Option String
  configFile : Option String

/-- `viper.New()`. -/
def viperNew : ViperState :=
  { defaults := [], config := [], envPfx := "", envBindings := []
    automaticEnv := false, configType := none, configFile := none }

/-- Insert-or-replace into a layer map (Go map assignment). -/
def setKey (l : List (String × Value)) (k : String) (val : Value) :
    List (String × Value) :=
  (l.filter (fun p => p.1 ≠ k)) ++ [(k, val)]

/-- viper's `getEnv`: apply the key replacer, then `os.LookupEnv`; with the
default `allowEmptyEnv = false`, a variable set to the empty string counts
as unset. -/
def getEnvVal (env : EnvMap) (name : String) : Option String :=
  match env.lookup (replaceDots name) with
  | some s => if s = "" then none else some s
  | none => none

/-- viper's `mergeWithEnvPrefix`: join the prefix and the key with `_`,
upper-cased. -/
def mergeWithEnvPfx (pfx key : String) : String :=
  if pfx = "" then strUpper key else strUpper (pfx ++ "_" ++ key)

/-- The `AutomaticEnv` probe inside `viper.find`. -/
def autoEnvLookup (env : EnvMap) (v : ViperState) (lk : String) : Option String :=
  if v.automaticEnv then getEnvVal env (mergeWithEnvPfx v.envPfx lk) else none

/-- The explicit-binding probe inside `viper.find`: the names bound to `lk`
are tried in registration order, the first one set in the environment wins. -/
def bindingLookup (env : EnvMap) : List (String × String) → String → Option String
  | [], _ => none
  | (k, name) :: rest, lk =>
    if k = lk then
      match getEnvVal env name with
      | some s => some s
      | none => bindingLookup env rest lk
    else bindingLookup env rest lk

/-- `viper.find` (as reached from `Get`/`IsSet`) for the layers in use.
Precedence, highest first: automatic env, bound env variables, config file
contents, defaults. Absent everywhere is `nil`. -/
def vFind (env : EnvMap) (v : ViperState) (key : String) : Option Value :=
  let lk := strLower key
  match autoEnvLookup env v lk with
  | some s => some (Value.vstr s)
  | none =>
    match bindingLookup env v.envBindings lk with
    | some s => some (Value.vstr s)
    | none =>
      match v.config.lookup lk with
      | some val => some val
      | none => v.defaults.lookup lk

/-- `viper.IsSet`. -/
def vIsSet (env : EnvMap) (v : ViperState) (key : String) : Bool :=
  (vFind env v key).isSome

/-- `viper.AllKeys`: the union of the bound-env keys (set or not), the config
keys and the default keys, first occurrence kept. -/
def dedupFirst (l : List String) : List String :=
  l.foldl (fun acc k => if k ∈ acc then acc else acc ++ [k]) []

def allKeys (v : ViperState) : List String :=
  dedupFirst (v.envBindings.map Prod.fst ++ v.config.map Prod.fst ++
    v.defaults.map Prod.fst)

/-- `viper.AllSettings`: every key with a non-nil `Get` value. -/
def allSettings (env : EnvMap) (v : ViperState) : List (String × Value) :=
  (allKeys v).filterMap (fun k => (vFind env v k).map (fun val => (k, val)))

/-! ### The typed projection (`ConfigStruct`) -/

/-- `ConfigStruct`: `Environment` (tag `mapstructure:"environment,required"`,
`default:"development"`), `Debug` (tag `mapstructure:"debug"`,
`default:"false"`), `Settings` (tag `mapstructure:"settings"`, `default:""`).
A Go `map[string]string` field can be `nil`; `none` models the nil map and
`some l` a non-nil map with entries `l`. -/
structure ConfigStruct where
  environment : String
  debug : Bool
  settings : Option (List (String × String))

/-- `reflect.Value.IsZero` for each field kind used by the schema. -/
def isZeroString (s : String) : Bool := s = ""
def isZeroBool (b : Bool) : Bool := b = false
def isZeroMap (m : Option (List (String × String))) : Bool := m.isNone

/-- `applyDefaults`: the reflection loop over the three fields of
`ConfigStruct`, unrolled. A field whose `default` tag is empty is skipped
(`if defaultVal == "" { continue }`) — so `Settings`, whose tag is
`default:""`, is never touched. A field whose value is not the zero value is
skipped. A string field gets the tag literal, a bool field gets
`defaultVal == "true"`. All three kinds are supported and every field is
settable, so the unrolled loop cannot reach the error returns. -/
def applyDefaults (cs : ConfigStruct) : Except String ConfigStruct :=
  let env1 := if isZeroString cs.environment then "development" else cs.environment
  let dbg1 := if isZeroBool cs.debug then ("false" == "true") else cs.debug
  Except.ok { environment := env1, debug := dbg1, settings := cs.settings }

/-- The `mapstructure` tag literals of the three fields, in field order. -/
def mapTagEnvironment : String := "environment,required"
def mapTagDebug : String := "debug"
def mapTagSettings : String := "settings"

/-- `validateRequiredFields`: the reflection loop unrolled over the three
fields; a field whose `mapstructure` tag contains `,required` and whose value
is the zero value yields an error naming the field. -/
def validateRequiredFields (cs : ConfigStruct) : Except String Unit :=
  if strContains mapTagEnvironment ",required" && isZeroString cs.environment then
    Except.error "required field Environment is not set"
  else if strContains mapTagDebug ",required" && isZeroBool cs.debug then
    Except.error "required field Debug is not set"
  else if strContains mapTagSettings ",required" && isZeroMap cs.settings then
    Except.error "required field Settings is not set"
  else Except.ok ()

/-! ### `viper.Unmarshal` into `ConfigStruct`

`viper.Unmarshal` decodes `AllSettings()` into the target through
`mapstructure` with `WeaklyTypedInput`. Decoding into an existing struct
leaves fields absent from the input unchanged, weakly coerces scalars
(a bool from a string goes through `strconv.ParseBool`, with `""` as `false`
and anything else an error; a string from a bool is `"1"`/`"0"`), and merges
map input into an existing non-nil map. -/

def weakToString : Value → Except String String
  | .vstr s => Except.ok s
  | .vbool b => Except.ok (if b then "1" else "0")
  | .vmap _ => Except.error "expected a string, got a map"

def weakToBool : Value → Except String Bool
  | .vbool b => Except.ok b
  | .vstr s =>
    match parseBool s with
    | some b => Except.ok b
    | none => if s = "" then Except.ok false else Except.error ("cannot parse as bool: " ++ s)
  | .vmap _ => Except.error "expected a bool, got a map"

def decodeStringField : Option Value → String → Except String String
  | none, old => Except.ok old
  | some v, _ => weakToString v

def decodeBoolField : Option Value → Bool → Except String Bool
  | none, old => Except.ok old
  | some v, _ => weakToBool v

/-- Decode the `settings` portion of the flattened settings: an exact
`settings` key must hold a map; dotted `settings.x` keys (the nested shape
viper rebuilds from dotted default keys) contribute entries with their values
coerced to strings. Absent input leaves the field unchanged; present input
merges into the existing map. -/
def decodeSettingsField (s : List (String × Value))
    (old : Option (List (String × String))) :
    Except String (Option (List (String × String))) :=
  let dotted := s.filter (fun p => strStarts p.1 "settings.")
  match s.lookup "settings", dotted with
  | none, [] => Except.ok old
  | exact, dotted =>
    match (match exact with
           | none => Except.ok []
           | some (.vmap m) => Except.ok m
           | some _ => Except.error "expected a map for settings") with
    | Except.error e => Except.error e
    | Except.ok base =>
      match dotted.mapM (fun p => (weakToString p.2).map (fun s' => (p.1.drop 9, s'))) with
      | Except.error e => Except.error e
      | Except.ok extra => Except.ok (some (old.getD [] ++ base ++ extra))

/-- `mapstructure` decode of the flattened `AllSettings` into the existing
`ConfigStruct`, field by field. -/
def decodeConfigStruct (s : List (String × Value)) (cs : ConfigStruct) :
    Except String ConfigStruct :=
  match decodeStringField (s.lookup "environment") cs.environment with
  | Except.error e => Except.error e
  | Except.ok envv =>
    match decodeBoolField (s.lookup "debug") cs.debug with
    | Except.error e => Except.error e
    | Except.ok dbg =>
      match decodeSettingsField s cs.settings with
      | Except.error e => Except.error e
      | Except.ok st => Except.ok { environment := envv, debug := dbg, settings := st }

/-! ### The configuration store and its options -/

/-- `Config` (the `sync.RWMutex` guards a construction-time-only mutation
discipline and has no observable effect on the sequential semantics). -/
structure Config where
  v : ViperState
  configStruct : ConfigStruct

/-- The ambient world an option runs in: the process environment and the
parsed contents of the file system (a present file either parses to a flat
key-value tree or fails with a read/parse error). -/
structure World where
  env : EnvMap
  fsys : List (String × Except String (List (String × Value)))

/-- `Option` (`func(*Config) error`), with the mutated store returned. -/
abbrev COption := Config → Except String Config

/-- The `Unmarshal`-then-`validateRequiredFields` tail shared by
`WithFilepath` and `WithEnv`. -/
def unmarshalValidate (env : EnvMap) (v' : ViperState) (cs : ConfigStruct)
    (wrapMsg : String) : Except String Config :=
  match decodeConfigStruct (allSettings env v') cs with
  | Except.error e => Except.error (wrapMsg ++ e)
  | Except.ok cs' =>
    match validateRequiredFields cs' with
    | Except.error e => Except.error e
    | Except.ok _ => Except.ok { v := v', configStruct := cs' }

/-- `WithFilepath`: reject extensions other than `.yaml`/`.yml`/`.json`
before any file access; register the file; `ReadInConfig` (replacing the
config layer with the parsed file, or failing with the path in the message);
re-unmarshal the projection; re-validate. -/
def WithFilepath (w : World) (path : String) : COption := fun c =>
  let ext := strLower (filepathExt path)
  if ext = ".yaml" ∨ ext = ".yml" then
    withFileRead w path "yaml" c
  else if ext = ".json" then
    withFileRead w path "json" c
  else
    Except.error ("unsupported file format: " ++ path)
where
  withFileRead (w : World) (path ty : String) (c : Config) : Except String Config :=
    match w.fsys.lookup path with
    | none =>
      Except.error ("failed to read config file " ++ path ++ ": file does not exist")
    | some (Except.error e) =>
      Except.error ("failed to read config file " ++ path ++ ": " ++ e)
    | some (Except.ok tree) =>
      let v' := { c.v with configType := some ty, configFile := some path,
                           config := tree.map (fun p => (strLower p.1, p.2)) }
      unmarshalValidate w.env v' c.configStruct "failed to unmarshal ConfigStruct: "

/-- `WithDefault`: `SetDefault` for each supplied key (lower-cased), and
nothing else — the projection is not re-derived and no validation runs. -/
def WithDefault (defaults : List (String × Value)) : COption := fun c =>
  Except.ok { c with
    v := { c.v with
      defaults := defaults.foldl (fun acc p => setKey acc (strLower p.1) p.2) c.v.defaults } }

/-- The fixed well-known keys `WithEnv` binds. -/
def boundKeys : List String := ["environment", "debug", "app.name", "app.port"]

/-- The variable name `WithEnv` binds a key to:
`fmt.Sprintf("%s_%s", strings.ToUpper(prefix), strings.ToUpper(envKey))`
with `envKey` the key with dots replaced by underscores. -/
def envVarName (pfx key : String) : String :=
  strUpper pfx ++ "_" ++ strUpper (replaceDots key)

/-- `WithEnv`: set the upper-cased prefix, the `.`→`_` replacer and
`AutomaticEnv`; bind the four well-known keys (`BindEnv` cannot fail on a
non-empty argument list); re-unmarshal the projection; re-validate. -/
def WithEnv (w : World) (pfx : String) : COption := fun c =>
  unmarshalValidate w.env
    { c.v with
      envPfx := strUpper pfx,
      automaticEnv := true,
      envBindings := c.v.envBindings ++ boundKeys.map (fun k => (k, envVarName pfx k)) }
    c.configStruct "failed to unmarshal ConfigStruct from env: "

/-- The struct literal in `New`: zero fields except a fresh empty (non-nil)
`Settings` map. -/
def initialConfigStruct : ConfigStruct :=
  { environment := "", debug := false, settings := some [] }

/-- Apply the options in caller order; stop at the first failure. Go's `New`
returns the pair `(*Config, error)`, with a `nil` store alongside an error. -/
def runOpts : Config → List COption → Option Config × Option String
  | c, [] => (some c, none)
  | c, o :: rest =>
    match o c with
    | Except.ok c' => runOpts c' rest
    | Except.error e => (none, some e)

/-- `New`: fresh viper, zero projection with a non-nil `Settings`,
`applyDefaults`, the required-field pre-check, then the options in order. -/
def New (opts : List COption) : Option Config × Option String :=
  match applyDefaults initialConfigStruct with
  | Except.error e => (none, some ("failed to apply defaults: " ++ e))
  | Except.ok cs =>
    match validateRequiredFields cs with
    | Except.error e => (none, some ("required field validation failed: " ++ e))
    | Except.ok _ => runOpts { v := viperNew, configStruct := cs } opts

/-- The store state `New` reaches right before applying the options. -/
def initConfig : Config :=
  { v := viperNew,
    configStruct := { environment := "development", debug := false, settings := some [] } }

/-! ### Accessors -/

/-- `Get`: the raw value, `nil` (`none`) when absent. -/
def Get (env : EnvMap) (c : Config) (key : String) : Option Value :=
  vFind env c.v key

/-- `GetStringWithDefault`: the string form of the value when the key is set,
else the fallback. -/
def GetStringWithDefault (env : EnvMap) (c : Config) (key dflt : String) : String :=
  if vIsSet env c.v key then castToString (vFind env c.v key) else dflt

/-- `GetBool`: `cast.ToBool` of the raw value. -/
def GetBool (env : EnvMap) (c : Config) (key : String) : Bool :=
  castToBool (vFind env c.v key)

/-- `GetConfigStruct`: a copy of the projection. -/
def GetConfigStruct (c : Config) : ConfigStruct :=
  c.configStruct

/-- The reference a caller can hand to `Unmarshal`: a non-pointer value, a
nil pointer, or a valid pointer to a (representative compatible) struct
holding the pointee's current contents. -/
inductive UnmarshalTarget where
  | nonPointer
  | nilPointer
  | pointerTo (cs : ConfigStruct)

/-- `Unmarshal`: `mapstructure` refuses a non-pointer result and a nil
pointer (whose `Elem` is not addressable); a valid pointer receives the
decode of `AllSettings` into the pointee. -/
def Unmarshal (env : EnvMap) (c : Config) : UnmarshalTarget → Except String ConfigStruct
  | UnmarshalTarget.nonPointer => Except.error "result must be a pointer"
  | UnmarshalTarget.nilPointer => Except.error "result must be addressable (a pointer)"
  | UnmarshalTarget.pointerTo cs => decodeConfigStruct (allSettings env c.v) cs

/-! ### Helper lemmas -/

/-- A successful `unmarshalValidate` keeps exactly the viper state it was
given. -/
theorem unmarshalValidate_ok_v {env : EnvMap} {v' : ViperState}
    {cs : ConfigStruct} {msg : String} {c' : Config}
    (h : unmarshalValidate env v' cs msg = Except.ok c') : c'.v = v' := by
  unfold unmarshalValidate at h
  cases hd : decodeConfigStruct (allSettings env v') cs with
  | error e => simp only [hd] at h; cases h
  | ok cs' =>
    simp only [hd] at h
    cases hv : validateRequiredFields cs' with
    | error e => simp only [hv] at h; cases h
    | ok u => simp only [hv] at h; cases h; rfl

/-- `vFind` when the automatic-env probe hits. -/
theorem vFind_of_auto {env : EnvMap} {v : ViperState} {key s : String}
    (h : autoEnvLookup env v (strLower key) = some s) :
    vFind env v key = some (Value.vstr s) := by
  unfold vFind
  simp only [h]

/-- `vFind` when neither env probe hits: fall through to the config and
defaults layers. -/
theorem vFind_no_env {env : EnvMap} {v : ViperState} {key : String}
    (h1 : autoEnvLookup env v (strLower key) = none)
    (h2 : bindingLookup env v.envBindings (strLower key) = none) :
    vFind env v key =
      (match v.config.lookup (strLower key) with
       | some val => some val
       | none => v.defaults.lookup (strLower key)) := by
  unfold vFind
  simp only [h1, h2]

/-! ### Claim theorems -/

/-- C4: a construction with no options succeeds and its projection has
`Environment = "development"`, `Debug = false`, and `Settings` an empty but
non-nil mapping. -/
theorem c4_new_without_options :
    New [] = (some initConfig, none) ∧
    GetConfigStruct initConfig =
      { environment := "development", debug := false, settings := some [] } :=
  ⟨rfl, rfl⟩

/-- C2 (failing evaluation): `New` with only a `WithDefault` option succeeds
and places the supplied value in the tree, but the projection returned by
`GetConfigStruct` still shows the struct-tag default — `WithDefault` mutates
the tree without re-deriving the projection or re-running validation, so the
projection does not reflect the values the option placed in the tree. -/
theorem c2_withdefault_leaves_projection_stale :
    (New [WithDefault [("environment", Value.vstr "staging")]]).2 = none ∧
    ((New [WithDefault [("environment", Value.vstr "staging")]]).1.map
        (fun c => ((GetConfigStruct c).environment,
                   GetStringWithDefault [] c "environment" "fallback")))
      = some ("development", "staging") :=
  ⟨rfl, rfl⟩

/-- The world of the C1 evaluation: `CONFIG_ENVIRONMENT` set to `staging` in
the process environment, and a `config.yaml` whose contents set
`environment: production`. -/
def c1World : World :=
  { env := [("CONFIG_ENVIRONMENT", "staging")],
    fsys := [("config.yaml", Except.ok [("environment", Value.vstr "production")])] }

/-- A world with only the `config.yaml` file, for the defaults-then-file
half of C1. -/
def c1FileWorld : World :=
  { env := [],
    fsys := [("config.yaml", Except.ok [("environment", Value.vstr "production")])] }

/-- C1 (failing evaluation): with an `Env` option followed in caller order by
a file option, both setting `environment`, the environment value `staging`
wins — both in the tree and in the projection — because viper's fixed
precedence places bound environment variables above config-file contents;
the file's `production` does not take effect. The defaults-then-file half of
the claim does hold: a file option after a `Default` option yields the
file's value. -/
theorem c1_env_beats_later_file :
    ((New [WithEnv c1World "CONFIG", WithFilepath c1World "config.yaml"]).2 = none ∧
     ((New [WithEnv c1World "CONFIG", WithFilepath c1World "config.yaml"]).1.map
        (fun c => (GetStringWithDefault c1World.env c "environment" "default",
                   (GetConfigStruct c).environment)))
       = some ("staging", "staging")) ∧
    ((New [WithDefault [("environment", Value.vstr "staging")],
           WithFilepath c1FileWorld "config.yaml"]).1.map
        (fun c => (GetStringWithDefault [] c "environment" "default",
                   (GetConfigStruct c).environment)))
      = some ("production", "production") :=
  ⟨⟨rfl, rfl⟩, rfl⟩

/-- C5: a file option on a path whose (lower-cased) extension is none of
`.yaml`, `.yml`, `.json` fails with the unsupported-format error, for every
world — in particular whether or not a file exists at the path, since the
extension test precedes any file access. -/
theorem c5_unsupported_extension_rejected (w : World) (path : String) (c : Config)
    (h1 : strLower (filepathExt path) ≠ ".yaml")
    (h2 : strLower (filepathExt path) ≠ ".yml")
    (h3 : strLower (filepathExt path) ≠ ".json") :
    WithFilepath w path c = Except.error ("unsupported file format: " ++ path) := by
  have hor : ¬(strLower (filepathExt path) = ".yaml" ∨ strLower (filepathExt path) = ".yml") := by
    rintro (h | h)
    · exact h1 h
    · exact h2 h
  unfold WithFilepath
  rw [if_neg hor, if_neg h3]

/-- Witness for C5: the extension `.txt` is rejected even though the world
contains a parseable file at that very path. -/
theorem c5_witness :
    WithFilepath
      { env := [], fsys := [("config.txt", Except.ok [("environment", Value.vstr "production")])] }
      "config.txt" initConfig
      = Except.error ("unsupported file format: " ++ "config.txt") :=
  c5_unsupported_extension_rejected _ _ _ (by decide) (by decide) (by decide)

/-- A world whose YAML file intentionally sets `environment` to the empty
string — the zero value of its type. -/
def c3World : World :=
  { env := [], fsys := [("a.yaml", Except.ok [("environment", Value.vstr "")])] }

/-- C3: `validateRequiredFields` succeeds exactly when the only
required-tagged field (`Environment`) is not at its type's zero value, and a
zero value fails naming that field; consequently a file source that
intentionally sets `environment` to the empty string is rejected, because the
zero value is treated as unset. -/
theorem c3_required_zero_is_rejected :
    (∀ cs : ConfigStruct,
      (validateRequiredFields cs = Except.ok () ↔ ¬ isZeroString cs.environment)
      ∧ (isZeroString cs.environment →
          validateRequiredFields cs = Except.error "required field Environment is not set"))
    ∧ WithFilepath c3World "a.yaml" initConfig
        = Except.error "required field Environment is not set" := by
  refine ⟨fun cs => ?_, rfl⟩
  have h1 : strContains mapTagEnvironment ",required" = true := rfl
  have h2 : strContains mapTagDebug ",required" = false := rfl
  have h3 : strContains mapTagSettings ",required" = false := rfl
  by_cases hz : cs.environment = "" <;>
    simp [validateRequiredFields, h1, h2, h3, isZeroString, hz]

/-- Witness for C3: the projection with an empty `Environment` is rejected
with the field named; one with it set passes. -/
theorem c3_witness :
    validateRequiredFields { environment := "", debug := false, settings := some [] }
      = Except.error "required field Environment is not set"
    ∧ validateRequiredFields { environment := "production", debug := false, settings := none }
      = Except.ok () :=
  ⟨(c3_required_zero_is_rejected.1 _).2 (by decide),
   (c3_required_zero_is_rejected.1 _).1.mpr (by decide)⟩

/-- C10: `applyDefaults` never changes a field that is already non-zero, and
it is idempotent — its output is a fixed point. -/
theorem c10_applydefaults_monotone_idempotent (cs cs' : ConfigStruct)
    (h : applyDefaults cs = Except.ok cs') :
    (¬ isZeroString cs.environment → cs'.environment = cs.environment)
    ∧ (¬ isZeroBool cs.debug → cs'.debug = cs.debug)
    ∧ (¬ isZeroMap cs.settings → cs'.settings = cs.settings)
    ∧ applyDefaults cs' = Except.ok cs' := by
  unfold applyDefaults at h ⊢
  cases h
  refine ⟨fun hne => ?_, fun hne => ?_, fun _ => rfl, ?_⟩
  · simp [isZeroString] at hne
    simp [isZeroString, hne]
  · simp [isZeroBool] at hne
    simp [isZeroBool, hne]
  · by_cases hz : cs.environment = "" <;> cases hd : cs.debug <;>
      simp [isZeroString, isZeroBool, hz, hd]

/-- Witness for C10: a fully non-zero projection is both untouched and a
fixed point. -/
theorem c10_witness :
    ∃ cs' : ConfigStruct,
      applyDefaults { environment := "production", debug := true, settings := some [] }
        = Except.ok cs'
      ∧ cs'.environment = "production" ∧ cs'.debug = true
      ∧ cs'.settings = some []
      ∧ applyDefaults cs' = Except.ok cs' := by
  refine ⟨_, rfl, ?_, ?_, ?_, ?_⟩
  · exact (c10_applydefaults_monotone_idempotent _ _ rfl).1 (by decide)
  · exact (c10_applydefaults_monotone_idempotent _ _ rfl).2.1 (by decide)
  · exact (c10_applydefaults_monotone_idempotent _ _ rfl).2.2.1 (by decide)
  · exact (c10_applydefaults_monotone_idempotent _ _ rfl).2.2.2

/-- C8: `GetBool` returns the boolean interpretation of the stored value —
a stored boolean comes back as itself, a stored string comes back as its
`ParseBool` reading — and it returns `false`, with no error surfaced (the
accessor cannot return one), whenever the key is absent, the stored string
does not parse as a boolean, or the stored value is a mapping. -/
theorem c8_getbool_lenient (env : EnvMap) (c : Config) (key : String) :
    (vFind env c.v key = none → GetBool env c key = false)
    ∧ (∀ b, vFind env c.v key = some (Value.vbool b) → GetBool env c key = b)
    ∧ (∀ s, vFind env c.v key = some (Value.vstr s) →
        GetBool env c key = (parseBool s).getD false)
    ∧ (∀ m, vFind env c.v key = some (Value.vmap m) → GetBool env c key = false) := by
  refine ⟨fun h => ?_, fun b h => ?_, fun s h => ?_, fun m h => ?_⟩ <;>
    simp [GetBool, h, castToBool]

/-- A store holding a malformed boolean at `debug`, built the way the
package's own tests build one (a config layer read from a buffer). -/
def c8Store : Config :=
  { v := { viperNew with config := [("debug", Value.vstr "not-a-boolean")] },
    configStruct := initialConfigStruct }

/-- Witness for C8: the malformed boolean string coerces to `false`, and an
absent key yields `false`. -/
theorem c8_witness :
    GetBool [] c8Store "debug" = (parseBool "not-a-boolean").getD false
    ∧ GetBool [] c8Store "missing" = false :=
  ⟨(c8_getbool_lenient [] c8Store "debug").2.2.1 "not-a-boolean" rfl,
   (c8_getbool_lenient [] c8Store "missing").1 rfl⟩

/-- Splitting a successful run of an option list at any decomposition:
if the first segment runs to `c₀` and the next option fails, the whole run
fails with exactly that error. -/
theorem runOpts_first_error (pre : List COption) :
    ∀ (c c₀ : Config) (o : COption) (post : List COption) (e : String),
      runOpts c pre = (some c₀, none) → o c₀ = Except.error e →
      runOpts c (pre ++ o :: post) = (none, some e) := by
  induction pre with
  | nil =>
    intro c c₀ o post e hpre ho
    cases hpre
    simp only [List.nil_append, runOpts, ho]
  | cons o' rest ih =>
    intro c c₀ o post e hpre ho
    unfold runOpts at hpre
    cases h' : o' c with
    | error e' => rw [h'] at hpre; cases hpre
    | ok c' =>
      rw [h'] at hpre
      simp only [List.cons_append, runOpts, h']
      exact ih c' c₀ o post e hpre ho

/-- A run of an option list either completes with a store and no error, or
stops with an error and no store. -/
theorem runOpts_total (opts : List COption) :
    ∀ c : Config, (∃ c', runOpts c opts = (some c', none))
      ∨ (∃ e, runOpts c opts = (none, some e)) := by
  induction opts with
  | nil => intro c; exact Or.inl ⟨c, rfl⟩
  | cons o rest ih =>
    intro c
    unfold runOpts
    cases h : o c with
    | error e => exact Or.inr ⟨e, rfl⟩
    | ok c' => exact ih c'

/-- C7: for every option sequence, `New` returns either a store with a `nil`
error or no store with the first error: default application and the
pre-check validation on the initial projection provably succeed (so `New`
proceeds from `initConfig`), a run never yields a store alongside an error,
and whenever a prefix of the options succeeds and the next option fails,
`New` returns exactly that option's error and no store. -/
theorem c7_new_all_or_nothing (opts : List COption) :
    New opts = runOpts initConfig opts
    ∧ ((∃ c, New opts = (some c, none)) ∨ (∃ e, New opts = (none, some e)))
    ∧ (∀ (pre : List COption) (o : COption) (post : List COption) (c₀ : Config) (e : String),
        opts = pre ++ o :: post →
        runOpts initConfig pre = (some c₀, none) →
        o c₀ = Except.error e →
        New opts = (none, some e)) := by
  have hinit : New opts = runOpts initConfig opts := rfl
  refine ⟨hinit, ?_, ?_⟩
  · rw [hinit]; exact runOpts_total opts initConfig
  · intro pre o post c₀ e hsplit hpre ho
    rw [hinit, hsplit]
    exact runOpts_first_error pre initConfig c₀ o post e hpre ho

/-- Witness for C7: a single failing option aborts construction with its
error and no store. -/
theorem c7_witness :
    New [fun _ => Except.error "boom"] = (none, some "boom") :=
  (c7_new_all_or_nothing [fun _ => Except.error "boom"]).2.2
    [] (fun _ => Except.error "boom") [] initConfig "boom" rfl rfl rfl

/-- C9: `Unmarshal` rejects a non-pointer target and a nil-pointer target
with the decoder's invalid-target errors, and a successful decode through a
valid pointer copies each resolvable path of the flattened tree into the
target: a string at `environment` and a boolean at `debug` arrive verbatim. -/
theorem c9_unmarshal_targets (env : EnvMap) (c : Config) :
    Unmarshal env c UnmarshalTarget.nonPointer = Except.error "result must be a pointer"
    ∧ Unmarshal env c UnmarshalTarget.nilPointer
        = Except.error "result must be addressable (a pointer)"
    ∧ ∀ (cs cs' : ConfigStruct),
        Unmarshal env c (UnmarshalTarget.pointerTo cs) = Except.ok cs' →
        (∀ s, (allSettings env c.v).lookup "environment" = some (Value.vstr s) →
            cs'.environment = s)
        ∧ (∀ b, (allSettings env c.v).lookup "debug" = some (Value.vbool b) →
            cs'.debug = b) := by
  refine ⟨rfl, rfl, fun cs cs' h => ?_⟩
  unfold Unmarshal decodeConfigStruct at h
  cases he : decodeStringField ((allSettings env c.v).lookup "environment") cs.environment with
  | error e => simp only [he] at h; cases h
  | ok envv =>
    simp only [he] at h
    cases hd : decodeBoolField ((allSettings env c.v).lookup "debug") cs.debug with
    | error e => simp only [hd] at h; cases h
    | ok dbg =>
      simp only [hd] at h
      cases hst : decodeSettingsField (allSettings env c.v) cs.settings with
      | error e => simp only [hst] at h; cases h
      | ok st =>
        simp only [hst] at h
        cases h
        constructor
        · intro s hlook
          rw [hlook] at he
          simp only [decodeStringField, weakToString] at he
          cases he
          rfl
        · intro b hlook
          rw [hlook] at hd
          simp only [decodeBoolField, weakToBool] at hd
          cases hd
          rfl

/-- The store of the package's whole-tree unmarshal test: a config layer
holding a string `environment` and a boolean `debug`. -/
def c9Store : Config :=
  { v := { viperNew with
      config := [("environment", Value.vstr "production"), ("debug", Value.vbool true)] },
    configStruct := initialConfigStruct }

/-- Witness for C9: the invalid targets are rejected, and a valid pointer
receives the tree's values. -/
theorem c9_witness :
    Unmarshal [] c9Store UnmarshalTarget.nonPointer = Except.error "result must be a pointer"
    ∧ (ConfigStruct.mk "production" true (some [])).environment = "production"
    ∧ (ConfigStruct.mk "production" true (some [])).debug = true :=
  ⟨(c9_unmarshal_targets [] c9Store).1,
   ((c9_unmarshal_targets [] c9Store).2.2
      { environment := "", debug := false, settings := some [] }
      (ConfigStruct.mk "production" true (some [])) rfl).1 "production" rfl,
   ((c9_unmarshal_targets [] c9Store).2.2
      { environment := "", debug := false, settings := some [] }
      (ConfigStruct.mk "production" true (some [])) rfl).2 true rfl⟩

/-- C6: after the environment option with prefix `CONFIG`, a bound key whose
variable is set takes its value from the environment — `CONFIG_APP_NAME`
set to `env-app` makes `GetStringWithDefault "app.name" "default"` return
`"env-app"` — and every bound key whose variable is unset keeps exactly the
value `Get` produced before the option ran (so prior defaults and file
values are left intact). -/
theorem c6_env_option_set_and_unset (w : World) (c c' : Config) :
    (getEnvVal w.env "CONFIG_APP_NAME" = some "env-app" →
     WithEnv w "CONFIG" c = Except.ok c' →
     GetStringWithDefault w.env c' "app.name" "default" = "env-app")
    ∧ (∀ k, k ∈ boundKeys →
       c.v.automaticEnv = false →
       c.v.envBindings = [] →
       getEnvVal w.env (envVarName "CONFIG" k) = none →
       WithEnv w "CONFIG" c = Except.ok c' →
       Get w.env c' k = Get w.env c k) := by
  constructor
  · intro hset hok
    unfold WithEnv at hok
    have hv := unmarshalValidate_ok_v hok
    have hauto : autoEnvLookup w.env c'.v (strLower "app.name") = some "env-app" := by
      rw [hv]
      exact hset
    have hfind := vFind_of_auto hauto
    simp [GetStringWithDefault, vIsSet, hfind, castToString]
  · intro k hk hA hB hunset hok
    unfold WithEnv at hok
    have hv := unmarshalValidate_ok_v hok
    obtain ⟨⟨dfts, cfg, p0, bnd, auto, ct, cf⟩, cs⟩ := c
    simp only at hA hB hv
    subst hA
    subst hB
    unfold Get
    simp only [boundKeys, List.mem_cons, List.not_mem_nil, or_false] at hk
    rcases hk with rfl | rfl | rfl | rfl
    · have h1 : autoEnvLookup w.env c'.v (strLower "environment") = none := by
        rw [hv]; exact hunset
      have h2 : bindingLookup w.env c'.v.envBindings (strLower "environment") = none := by
        rw [hv]
        show (match getEnvVal w.env "CONFIG_ENVIRONMENT" with
              | some s => some s
              | none => (none : Option String)) = none
        rw [show getEnvVal w.env "CONFIG_ENVIRONMENT" = none from hunset]
      rw [vFind_no_env h1 h2, hv]
      rfl
    · have h1 : autoEnvLookup w.env c'.v (strLower "debug") = none := by
        rw [hv]; exact hunset
      have h2 : bindingLookup w.env c'.v.envBindings (strLower "debug") = none := by
        rw [hv]
        show (match getEnvVal w.env "CONFIG_DEBUG" with
              | some s => some s
              | none => (none : Option String)) = none
        rw [show getEnvVal w.env "CONFIG_DEBUG" = none from hunset]
      rw [vFind_no_env h1 h2, hv]
      rfl
    · have h1 : autoEnvLookup w.env c'.v (strLower "app.name") = none := by
        rw [hv]; exact hunset
      have h2 : bindingLookup w.env c'.v.envBindings (strLower "app.name") = none := by
        rw [hv]
        show (match getEnvVal w.env "CONFIG_APP_NAME" with
              | some s => some s
              | none => (none : Option String)) = none
        rw [show getEnvVal w.env "CONFIG_APP_NAME" = none from hunset]
      rw [vFind_no_env h1 h2, hv]
      rfl
    · have h1 : autoEnvLookup w.env c'.v (strLower "app.port") = none := by
        rw [hv]; exact hunset
      have h2 : bindingLookup w.env c'.v.envBindings (strLower "app.port") = none := by
        rw [hv]
        show (match getEnvVal w.env "CONFIG_APP_PORT" with
              | some s => some s
              | none => (none : Option String)) = none
        rw [show getEnvVal w.env "CONFIG_APP_PORT" = none from hunset]
      rw [vFind_no_env h1 h2, hv]
      rfl

/-- Witness for C6: with only `CONFIG_APP_NAME` set, `app.name` reads from
the environment while the unset bound key `app.port` is unchanged by the
option. -/
theorem c6_witness :
    ∃ c', WithEnv { env := [("CONFIG_APP_NAME", "env-app")], fsys := [] } "CONFIG" initConfig
            = Except.ok c'
      ∧ GetStringWithDefault [("CONFIG_APP_NAME", "env-app")] c' "app.name" "default" = "env-app"
      ∧ Get [("CONFIG_APP_NAME", "env-app")] c' "app.port"
          = Get [("CONFIG_APP_NAME", "env-app")] initConfig "app.port" := by
  refine ⟨_, rfl, ?_, ?_⟩
  · exact (c6_env_option_set_and_unset
      { env := [("CONFIG_APP_NAME", "env-app")], fsys := [] } initConfig _).1 rfl rfl
  · exact (c6_env_option_set_and_unset
      { env := [("CONFIG_APP_NAME", "env-app")], fsys := [] } initConfig _).2
      "app.port" (by decide) rfl rfl rfl rfl
